import Mathlib

/-!
Shallow embedding of the TFM-hook webhook handler (src/index.js) and proofs
about its signature-verification and orchestration pipeline.

Modelling conventions:
* Byte strings (the raw payload, the signature header value, the secret) are
  `List Nat` (the UTF-8 bytes of the corresponding JavaScript string/Buffer).
* The HMAC-SHA256 hex digest computed by the crypto library is an external
  collaborator, passed in as a function `hmacHex : List Nat → List Nat → List Nat`
  from (secret, payload) to the bytes of the hex digest string.
* The filesystem and the shell are external collaborators, modelled by the
  oracle record `Env`: `fsExists` models `fs.existsSync`, `run` models whether
  `exec` of a given command line resolves (true) or rejects (false).
* JavaScript exceptions are modelled with `Except JsError`; a `try { } catch`
  block is modelled by matching on the `Except` value of the embedded body.
-/

namespace TFMHook

/-- Exceptions that the modelled JavaScript code can raise. -/
inductive JsError where
  | lengthMismatch : JsError
  | pathMissing : String → JsError
  | cmdFailed : String → JsError
deriving DecidableEq

/-- Outcome entry pushed for each repository: `{ name: repo.name, success }`. -/
structure RepoOutcome where
  name : String
  success : Bool
deriving DecidableEq

/-- Outcome entry pushed for the whole Docker-service batch: `{ success }`. -/
structure ServiceOutcome where
  success : Bool
deriving DecidableEq

/-- The `results` object built by `handleWebhook`. -/
structure WebhookResult where
  repositories : List RepoOutcome
  services : List ServiceOutcome
  success : Bool
deriving DecidableEq

/-- One entry of the `REPOSITORIES` configuration array; `branch` is `none`
when the JSON object omits it (the code then defaults to "main"). -/
structure RepoConfig where
  name : String
  path : String
  branch : Option String
deriving DecidableEq

/-- The process-wide configuration read from the environment.  An empty
`secret` models the falsy empty string default of `GITHUB_WEBHOOK_SECRET`. -/
structure Config where
  secret : List Nat
  repositories : List RepoConfig
  dockerServices : List String

/-- External-world oracles: `fsExists` models `fs.existsSync` (true when any
filesystem object exists at the path), `isDir` records whether the object at
the path is a directory (a filesystem fact the source never consults), and
`run` models whether `exec` of the command line succeeds. -/
structure Env where
  fsExists : String → Bool
  isDir : String → Bool
  run : String → Bool

/-- Bytes of the ASCII string "sha256=". -/
def sha256Label : List Nat := [115, 104, 97, 50, 53, 54, 61]

/-- Model of Node `crypto.timingSafeEqual`: raises when the two buffers have
different lengths, otherwise reports whether they are equal. -/
def timingSafeEqual (a b : List Nat) : Except JsError Bool :=
  if a.length = b.length then Except.ok (a == b) else Except.error JsError.lengthMismatch

/-- `verifySignature(payload, signature)` from src/index.js, with the secret
and the HMAC hex-digest function passed explicitly.  Returns true at once for
a falsy (empty) secret; otherwise compares the signature header bytes with
"sha256=" ++ hex digest via `timingSafeEqual`, which can raise. -/
def verifySignature (hmacHex : List Nat → List Nat → List Nat)
    (secret payload signature : List Nat) : Except JsError Bool :=
  if secret.isEmpty then Except.ok true
  else timingSafeEqual signature (sha256Label ++ hmacHex secret payload)

/-- The branch used by `pullRepository`: the configured one, defaulting to
"main" when the configuration omits it. -/
def branchOf (r : RepoConfig) : String := r.branch.getD "main"

/-- The shell command `cd "<path>" && git pull origin <branch>`. -/
def pullCommand (r : RepoConfig) : String :=
  "cd \"" ++ r.path ++ "\" && git pull origin " ++ branchOf r

/-- Body of the `try` block of `pullRepository`: throws when the path does not
exist, otherwise runs the pull command (whose rejection also throws).  The
second component records the external commands invoked, which survive any
exception. -/
def pullRepositoryBody (env : Env) (repo : RepoConfig) : Except JsError Unit × List String :=
  if env.fsExists repo.path then
    (if env.run (pullCommand repo) then Except.ok ()
     else Except.error (JsError.cmdFailed (pullCommand repo)),
     [pullCommand repo])
  else (Except.error (JsError.pathMissing repo.path), [])

/-- Model of a `try { ... return true } catch { ... return false }` wrapper. -/
def caughtOk : Except JsError Unit → Bool
  | Except.ok _ => true
  | Except.error _ => false

/-- `pullRepository(repoConfig)`: the try/catch converts every exception of
the body into a `false` outcome; commands already invoked are kept. -/
def pullRepository (env : Env) (repo : RepoConfig) : Bool × List String :=
  (caughtOk (pullRepositoryBody env repo).1, (pullRepositoryBody env repo).2)

/-- The shell command `docker restart <service>`. -/
def restartCommand (s : String) : String := "docker restart " ++ s

/-- Body of the `for` loop inside the `try` block of `restartDockerServices`:
the first rejecting restart throws, aborting the remainder of the batch. -/
def restartLoop (env : Env) : List String → Except JsError Unit × List String
  | [] => (Except.ok (), [])
  | s :: rest =>
    if env.run (restartCommand s) then
      ((restartLoop env rest).1, restartCommand s :: (restartLoop env rest).2)
    else (Except.error (JsError.cmdFailed (restartCommand s)), [restartCommand s])

/-- `restartDockerServices(services)`: empty batch returns true at once;
otherwise the catch converts the first failure into a single `false` for the
whole batch. -/
def restartDockerServices (env : Env) (services : List String) : Bool × List String :=
  if services.isEmpty then (true, [])
  else (caughtOk (restartLoop env services).1, (restartLoop env services).2)

/-- The repository loop of `handleWebhook`: pushes `{name, success}` for every
configured repository in order, maintains the running success flag, and
accumulates the invoked commands. -/
def pullAll (env : Env) : List RepoConfig → List RepoOutcome × Bool × List String
  | [] => ([], true, [])
  | r :: rest =>
    (⟨r.name, (pullRepository env r).1⟩ :: (pullAll env rest).1,
     (pullRepository env r).1 && (pullAll env rest).2.1,
     (pullRepository env r).2 ++ (pullAll env rest).2.2)

/-- `handleWebhook(payload)` from src/index.js: pulls every configured
repository, then restarts the service batch, pushing one `{success}` entry
for the batch; `success` is the running AND of all outcomes.  The `payload`
parameter is accepted but never used by the source function.  The second
component is the list of external commands invoked, in order. -/
def handleWebhook (env : Env) (cfg : Config) (payload : List Nat) :
    WebhookResult × List String :=
  ({ repositories := (pullAll env cfg.repositories).1,
     services := [⟨(restartDockerServices env cfg.dockerServices).1⟩],
     success := (pullAll env cfg.repositories).2.1 &&
       (restartDockerServices env cfg.dockerServices).1 },
   (pullAll env cfg.repositories).2.2 ++ (restartDockerServices env cfg.dockerServices).2)

/-- HTTP responses the `/hook/refresh` route can produce.  `internalError` is
the response of the route's `catch` branch (`500 { error: 'Internal server
error' }`); `processed` carries the status (200 on success, 500 otherwise)
and the orchestration results. -/
inductive Response where
  | unauthorized : Response
  | processed : Nat → WebhookResult → Response
  | internalError : Response
deriving DecidableEq

/-- JavaScript truthiness of the `x-hub-signature-256` header value: an
absent header (`none`) and an empty header string are both falsy. -/
def signatureTruthy : Option (List Nat) → Bool
  | none => false
  | some s => !s.isEmpty

/-- The successful branch of the route's `try` block: run `handleWebhook` and
report 200 or 500 according to `results.success`, with the commands it ran. -/
def processedResponse (env : Env) (cfg : Config) (body : List Nat) : Response × List String :=
  (Response.processed (if (handleWebhook env cfg body).1.success then 200 else 500)
     (handleWebhook env cfg body).1,
   (handleWebhook env cfg body).2)

/-- The `POST /hook/refresh` handler.  When the header is truthy it calls
`verifySignature` (outside the try/catch, so an exception there escapes the
route, modelled by `Except.error`); a `false` verdict yields 401 with no
orchestration.  Otherwise — including when the header is absent — it proceeds
to `handleWebhook`.  The model of `handleWebhook` is total (its callees catch
all their exceptions), so the catch branch producing `Response.internalError`
never executes and is not constructed here. -/
def hookRefresh (hmacHex : List Nat → List Nat → List Nat) (env : Env) (cfg : Config)
    (body : List Nat) (signature : Option (List Nat)) :
    Except JsError (Response × List String) :=
  if signatureTruthy signature then
    match verifySignature hmacHex cfg.secret body (signature.getD []) with
    | Except.error e => Except.error e
    | Except.ok false => Except.ok (Response.unauthorized, [])
    | Except.ok true => Except.ok (processedResponse env cfg body)
  else Except.ok (processedResponse env cfg body)

/-- A fixed stand-in for the HMAC-SHA256 hex digest, used only to evaluate the
model on concrete inputs; like the real digest it always has 64 hex
characters (here the bytes of sixty-four ASCII "0" characters). -/
def hmacOracle : List Nat → List Nat → List Nat := fun _ _ => List.replicate 64 48

/-- Environment in which every path exists as a directory and every command
succeeds. -/
def envT : Env := ⟨fun _ => true, fun _ => true, fun _ => true⟩

/- ------------------------------------------------------------------ -/
/- Helper lemmas shared by several claims.                            -/
/- ------------------------------------------------------------------ -/

lemma pullAll_outcomes (env : Env) (l : List RepoConfig) :
    (pullAll env l).1 = l.map (fun r => (⟨r.name, (pullRepository env r).1⟩ : RepoOutcome)) := by
  induction l with
  | nil => rfl
  | cons r rest ih => simp [pullAll, ih]

lemma pullAll_flag (env : Env) (l : List RepoConfig) :
    (pullAll env l).2.1 = ((pullAll env l).1).all (fun o => o.success) := by
  induction l with
  | nil => rfl
  | cons r rest ih => simp [pullAll, ih]

/- ------------------------------------------------------------------ -/
/- Claims.                                                            -/
/- ------------------------------------------------------------------ -/

/-- C7: with an empty/unset secret, `verifySignature` returns true
unconditionally, for every payload and every signature value, and
independently of the HMAC function (no digest is computed or compared). -/
theorem verifySignature_empty_secret_true (hmacHex : List Nat → List Nat → List Nat)
    (payload signature : List Nat) :
    verifySignature hmacHex [] payload signature = Except.ok true := rfl

/-- C10: the orchestration result of `handleWebhook` is independent of the
webhook payload: identical configuration and external-command outcomes give
equal results (and equal command lists) for any two payload bodies. -/
theorem handleWebhook_payload_independent (env : Env) (cfg : Config)
    (b1 b2 : List Nat) : handleWebhook env cfg b1 = handleWebhook env cfg b2 := rfl

/-- Configuration with a non-empty secret (byte "s"), no repositories and one
Docker service, used to evaluate the route with a missing signature header. -/
def cfgC1 : Config := ⟨[115], [], ["a"]⟩

/-- C1 (evaluation at the failing input): with a secret configured and the
signature header absent, the route does NOT respond 401 — it skips
verification, runs the orchestration (a Docker restart command is invoked)
and responds 200. -/
theorem hook_missing_signature_secret_configured_not_rejected :
    hookRefresh hmacOracle envT cfgC1 [] none =
      Except.ok (Response.processed 200 ⟨[], [⟨true⟩], true⟩, [restartCommand "a"]) ∧
    Response.processed 200 (⟨[], [⟨true⟩], true⟩ : WebhookResult) ≠ Response.unauthorized := by
  exact ⟨rfl, by decide⟩

/-- Configuration with only a non-empty secret (byte "s"). -/
def cfgSec : Config := ⟨[115], [], []⟩

/-- C2 (evaluation at the failing input): a provided signature whose length
differs from the computed digest string makes `verifySignature` raise (model
of `crypto.timingSafeEqual` rejecting unequal-length buffers) rather than
return false; the exception escapes the route handler uncaught, since
verification happens before its try block. -/
theorem verifySignature_length_mismatch_throws :
    verifySignature hmacOracle [115] [] [48] = Except.error JsError.lengthMismatch ∧
    hookRefresh hmacOracle envT cfgSec [] (some [48]) = Except.error JsError.lengthMismatch := by
  exact ⟨rfl, rfl⟩

/-- C4: the `repositories` sequence of the result has one entry per configured
repository, in configured order, each entry carrying that target's own name
and its own pull outcome — so a failure of repository i can neither suppress
nor alter the entry of repository i+1, and every repository is attempted. -/
theorem handleWebhook_repositories_one_outcome_per_target (env : Env) (cfg : Config)
    (body : List Nat) :
    (handleWebhook env cfg body).1.repositories =
      cfg.repositories.map (fun r => (⟨r.name, (pullRepository env r).1⟩ : RepoOutcome)) ∧
    (handleWebhook env cfg body).1.repositories.length = cfg.repositories.length := by
  refine ⟨pullAll_outcomes env cfg.repositories, ?_⟩
  show (pullAll env cfg.repositories).1.length = _
  rw [pullAll_outcomes env cfg.repositories, List.length_map]

/-- C3: when the signature header is present and `verifySignature` returns a
`false` verdict against the configured secret, the route responds 401
(`Response.unauthorized`) and the list of invoked external commands is empty:
no repository pull and no service restart happens. -/
theorem hook_invalid_signature_unauthorized_no_commands
    (hmacHex : List Nat → List Nat → List Nat) (env : Env) (cfg : Config)
    (body signature : List Nat)
    (h : verifySignature hmacHex cfg.secret body signature = Except.ok false) :
    hookRefresh hmacHex env cfg body (some signature) =
      Except.ok (Response.unauthorized, []) := by
  have hne : signature ≠ [] := by
    intro hnil
    subst hnil
    unfold verifySignature at h
    split at h
    · exact absurd h (by simp)
    · unfold timingSafeEqual at h
      split at h
      · rename_i hlen
        simp [sha256Label] at hlen
      · exact absurd h (by simp)
  have htr : signatureTruthy (some signature) = true := by
    cases signature with
    | nil => exact absurd rfl hne
    | cons a t => rfl
  unfold hookRefresh
  rw [htr]
  simp only [if_true, Option.getD_some, h]

/-- Environment for the C3 witness. -/
def envC3 : Env := ⟨fun _ => true, fun _ => true, fun _ => true⟩

/-- A signature header value of the right length (71 bytes) but wrong
content: seventy-one ASCII "0" bytes, which differ from the digest string in
the "sha256=" label. -/
def sigBad : List Nat := List.replicate 71 48

theorem hook_invalid_signature_unauthorized_no_commands_witness :
    hookRefresh hmacOracle envC3 cfgSec [] (some sigBad) =
      Except.ok (Response.unauthorized, []) :=
  hook_invalid_signature_unauthorized_no_commands hmacOracle envC3 cfgSec [] sigBad rfl

/-- Splitting lemma for the restart loop: if every service before `fail`
restarts successfully and `fail` does not, the loop raises at `fail` having
invoked exactly the commands of the prefix and of `fail` itself. -/
lemma restartLoop_split (env : Env) (fail : String) (post : List String)
    (hfail : env.run (restartCommand fail) = false) :
    ∀ pre : List String, (∀ s ∈ pre, env.run (restartCommand s) = true) →
      restartLoop env (pre ++ fail :: post) =
        (Except.error (JsError.cmdFailed (restartCommand fail)),
         (pre ++ [fail]).map restartCommand) := by
  intro pre
  induction pre with
  | nil => intro _; simp [restartLoop, hfail]
  | cons s rest ih =>
    intro hpre
    have hs : env.run (restartCommand s) = true := hpre s (List.mem_cons_self s rest)
    have hr := ih (fun x hx => hpre x (List.mem_cons_of_mem s hx))
    simp [restartLoop, hs, hr]

/-- C5: in a service batch where the restart of service `fail` rejects and
all earlier restarts succeed, `restartDockerServices` reports `false` for the
whole batch and invokes exactly the restart commands up to and including
`fail` — no command for any later service. -/
theorem restartDockerServices_short_circuit (env : Env) (pre post : List String)
    (fail : String)
    (hpre : ∀ s ∈ pre, env.run (restartCommand s) = true)
    (hfail : env.run (restartCommand fail) = false) :
    restartDockerServices env (pre ++ fail :: post) =
      (false, (pre ++ [fail]).map restartCommand) := by
  have hsplit := restartLoop_split env fail post hfail pre hpre
  have hne : (pre ++ fail :: post).isEmpty = false := by
    cases pre <;> rfl
  simp [restartDockerServices, hne, hsplit, caughtOk]

/-- Environment for the C5 witness: only the restart of service "a"
succeeds. -/
def envC5 : Env := ⟨fun _ => true, fun _ => true, fun c => c == restartCommand "a"⟩

theorem restartDockerServices_short_circuit_witness :
    restartDockerServices envC5 (["a"] ++ "b" :: ["c"]) =
      (false, (["a"] ++ ["b"]).map restartCommand) :=
  restartDockerServices_short_circuit envC5 ["a"] ["c"] "b" (by decide) (by decide)

/-- Setting the `success` field of the i-th recorded repository outcome to
false, leaving everything else unchanged. -/
def setSuccessFalse : List RepoOutcome → Nat → List RepoOutcome
  | [], _ => []
  | o :: rest, 0 => ⟨o.name, false⟩ :: rest
  | o :: rest, i + 1 => o :: setSuccessFalse rest i

lemma setSuccessFalse_all_false (l : List RepoOutcome) (i : Nat) (hi : i < l.length) :
    (setSuccessFalse l i).all (fun o => o.success) = false := by
  induction l generalizing i with
  | nil => simp at hi
  | cons o rest ih =>
    cases i with
    | zero => simp [setSuccessFalse]
    | succ i =>
      have := ih i (by simpa using hi)
      simp [setSuccessFalse, this]

/-- C6: the overall `success` flag of the result equals the AND of every
recorded repository outcome and the recorded service-batch outcome; it is
true when no repositories and no services are configured; and flipping any
single recorded outcome (a repository entry, or the batch entry) to false
makes the conjunction false. -/
theorem handleWebhook_overall_success_conjunction (env : Env) (cfg : Config)
    (body : List Nat) :
    ((handleWebhook env cfg body).1.success =
      ((handleWebhook env cfg body).1.repositories.all (fun o => o.success) &&
       (handleWebhook env cfg body).1.services.all (fun o => o.success))) ∧
    (cfg.repositories = [] → cfg.dockerServices = [] →
      (handleWebhook env cfg body).1.success = true) ∧
    (∀ i, i < (handleWebhook env cfg body).1.repositories.length →
      ((setSuccessFalse (handleWebhook env cfg body).1.repositories i).all
          (fun o => o.success) &&
        (handleWebhook env cfg body).1.services.all (fun o => o.success)) = false) ∧
    (((handleWebhook env cfg body).1.repositories.all (fun o => o.success) &&
      ([(⟨false⟩ : ServiceOutcome)].all (fun o => o.success))) = false) := by
  refine ⟨?_, ?_, ?_, ?_⟩
  · show ((pullAll env cfg.repositories).2.1 && _) = _
    rw [pullAll_flag env cfg.repositories]
    simp [handleWebhook]
  · intro h1 h2
    simp [handleWebhook, h1, h2, pullAll, restartDockerServices]
  · intro i hi
    rw [setSuccessFalse_all_false _ i hi]
    simp
  · simp

/-- Empty configuration for the C6 witness. -/
def cfgEmptyC6 : Config := ⟨[], [], []⟩

/-- One-repository configuration for the C6 witness. -/
def cfgOneC6 : Config := ⟨[], [⟨"r", "/p", none⟩], []⟩

theorem handleWebhook_overall_success_conjunction_witness :
    (handleWebhook envT cfgEmptyC6 []).1.success = true ∧
    ((setSuccessFalse (handleWebhook envT cfgOneC6 []).1.repositories 0).all
        (fun o => o.success) &&
      (handleWebhook envT cfgOneC6 []).1.services.all (fun o => o.success)) = false :=
  ⟨(handleWebhook_overall_success_conjunction envT cfgEmptyC6 []).2.1 rfl rfl,
   (handleWebhook_overall_success_conjunction envT cfgOneC6 []).2.2.1 0 (by decide)⟩

/-- C8 (amended): when `fs.existsSync` is false for the configured path —
nothing exists there at all — `pullRepository` fails immediately with a false
outcome and invokes no external command; and the outcome recorded for every
repository in an orchestration run is a function of that repository's own
target alone, so other repositories are unaffected. -/
theorem pullRepository_missing_path_fail_fast (env : Env) (repo : RepoConfig)
    (h : env.fsExists repo.path = false) :
    pullRepository env repo = (false, []) ∧
    ∀ cfg : Config, ∀ body : List Nat,
      (handleWebhook env cfg body).1.repositories =
        cfg.repositories.map (fun r => (⟨r.name, (pullRepository env r).1⟩ : RepoOutcome)) := by
  constructor
  · simp [pullRepository, pullRepositoryBody, h, caughtOk]
  · intro cfg body
    exact pullAll_outcomes env cfg.repositories

/-- Environment for the C8 witness and counterexample discussion: no path
exists. -/
def envNoFs : Env := ⟨fun _ => false, fun _ => false, fun _ => true⟩

/-- Repository target used in the C8 witness. -/
def repoMissing : RepoConfig := ⟨"r", "/missing", none⟩

theorem pullRepository_missing_path_fail_fast_witness :
    pullRepository envNoFs repoMissing = (false, []) :=
  (pullRepository_missing_path_fail_fast envNoFs repoMissing rfl).1

/-- Environment in which every path exists but as a regular file, not a
directory (`fs.existsSync` true, directory check false); commands succeed. -/
def envFileAt : Env := ⟨fun _ => true, fun _ => false, fun _ => true⟩

/-- Repository target whose path is occupied by a regular file. -/
def repoFileAt : RepoConfig := ⟨"r", "/f", none⟩

/-- C8 (counterexample to the claim as stated): a configured path that exists
but is not a directory does NOT exist as a directory, yet `pullRepository`
does not fail fast — the source guards with `fs.existsSync` only, so the
external pull command IS invoked. -/
theorem pullRepository_file_path_runs_command :
    envFileAt.isDir repoFileAt.path = false ∧
    pullRepository envFileAt repoFileAt = (true, [pullCommand repoFileAt]) ∧
    pullRepository envFileAt repoFileAt ≠ (false, []) := by
  refine ⟨rfl, rfl, by decide⟩

/-- C9: per-target failures never escape as exceptions — the try/catch of
`pullRepository` converts every exception of its body into a `false` outcome,
the catch of `restartDockerServices` converts a raising batch loop into a
`false` batch outcome, and consequently whenever the route resolves, its
response is never the generic `Internal server error` catch response. -/
theorem handleWebhook_never_internal_error :
    (∀ env repo e cmds, pullRepositoryBody env repo = (Except.error e, cmds) →
      pullRepository env repo = (false, cmds)) ∧
    (∀ env svcs e cmds, restartLoop env svcs = (Except.error e, cmds) →
      restartDockerServices env svcs = (false, cmds)) ∧
    (∀ hmacHex env cfg body signature resp cmds,
      hookRefresh hmacHex env cfg body signature = Except.ok (resp, cmds) →
      resp ≠ Response.internalError) := by
  refine ⟨?_, ?_, ?_⟩
  · intro env repo e cmds h
    simp [pullRepository, h, caughtOk]
  · intro env svcs e cmds h
    cases svcs with
    | nil => simp [restartLoop] at h
    | cons s rest =>
      simp [restartDockerServices, h, caughtOk]
  · intro hmacHex env cfg body signature resp cmds h heq
    subst heq
    unfold hookRefresh at h
    split at h
    · split at h
      · exact absurd h (by simp)
      · simp [Prod.ext_iff] at h
      · simp [processedResponse, Prod.ext_iff] at h
    · simp [processedResponse, Prod.ext_iff] at h

/-- Environment for the C9 witness in which every command rejects. -/
def envFailCmd : Env := ⟨fun _ => true, fun _ => true, fun _ => false⟩

/-- Repository target used in the C9 witness. -/
def repoGone : RepoConfig := ⟨"g", "/gone", none⟩

theorem handleWebhook_never_internal_error_witness :
    pullRepository envNoFs repoGone = (false, []) ∧
    restartDockerServices envFailCmd ["a"] = (false, [restartCommand "a"]) ∧
    Response.processed 200 (⟨[], [⟨true⟩], true⟩ : WebhookResult) ≠ Response.internalError :=
  ⟨handleWebhook_never_internal_error.1 envNoFs repoGone
      (JsError.pathMissing "/gone") [] rfl,
   handleWebhook_never_internal_error.2.1 envFailCmd ["a"]
      (JsError.cmdFailed (restartCommand "a")) [restartCommand "a"] rfl,
   handleWebhook_never_internal_error.2.2 hmacOracle envT cfgEmptyC6 [] none
      (Response.processed 200 ⟨[], [⟨true⟩], true⟩) [] rfl⟩

end TFMHook
